import Mathlib

/-
Verification of the Piff `gsobject_model` fitting core.

The Python source `piff/gsobject_model.py` is shallowly embedded below.
Machine floats are modelled by real numbers; images are flattened pixel
lists; Python exceptions become the `Err` sum type through `Except`.
External collaborators (the galsim renderer, the HSM moment estimator and
the lmfit nonlinear minimizer) are oracles passed in as explicit function
arguments, following the spec's interface contracts for them.
-/

namespace Piff

/-- Python exceptions raised by the embedded code paths. -/
inductive Err where
  /-- `RuntimeError("Error initializing star fit values using hsm.")` -/
  | runtimeErrorHsm
  /-- `ModelFitError("Error calculating model moments for this star.")` -/
  | modelFitError
  /-- `RuntimeError("Error fitting with lmfit.")` -/
  | runtimeErrorLmfit
  /-- Python `ValueError` from a tuple-unpacking arity mismatch. -/
  | valueError
  /-- Python `TypeError` from unpacking/indexing `None`. -/
  | typeError
  /-- Python `KeyError` from a missing dict key. -/
  | keyError
  /-- Embedding artifact: recursion fuel exhausted (never hit with enough fuel). -/
  | outOfFuel
deriving DecidableEq

/-- Modelled from the spec: the external galsim `Shear` value, represented by
its reduced-shear components `(g1, g2)`; the spec fixes the reduced-shear /
distortion relations and the "standard shear-addition law" used below. -/
structure Shear where
  g1 : ℝ
  g2 : ℝ

namespace Shear

/-- Modelled from the spec: distortion component `e1` of a shear, via the
standard relation (distortion magnitude `= 2|g|/(1+|g|^2)`, same angle). -/
noncomputable def e1 (s : Shear) : ℝ :=
  s.g1 * (2 / (1 + (s.g1 ^ 2 + s.g2 ^ 2)))

/-- Modelled from the spec: distortion component `e2` of a shear. -/
noncomputable def e2 (s : Shear) : ℝ :=
  s.g2 * (2 / (1 + (s.g1 ^ 2 + s.g2 ^ 2)))

/-- Modelled from the spec: build a `Shear` from distortion components,
`g = e / (1 + sqrt(1 - |e|^2))` (the distortion-to-reduced-shear relation). -/
noncomputable def fromE (e1c e2c : ℝ) : Shear :=
  let e2g := 1 / (1 + Real.sqrt (1 - (e1c ^ 2 + e2c ^ 2)))
  ⟨e1c * e2g, e2c * e2g⟩

/-- Modelled from the spec: the standard shear-addition law.  Writing shears
as complex reduced shears, `a + b = (g_a + g_b) / (1 + conj(g_a) * g_b)`,
expanded here into real and imaginary parts. -/
noncomputable def add (a b : Shear) : Shear :=
  let nre := a.g1 + b.g1
  let nim := a.g2 + b.g2
  let dre := 1 + (a.g1 * b.g1 + a.g2 * b.g2)
  let dim := a.g1 * b.g2 - a.g2 * b.g1
  let den := dre ^ 2 + dim ^ 2
  ⟨(nre * dre + nim * dim) / den, (nim * dre - nre * dim) / den⟩

/-- Modelled from the spec: shear subtraction,
`a - b = (g_a - g_b) / (1 - conj(g_a) * g_b)` in complex form. -/
noncomputable def sub (a b : Shear) : Shear :=
  let nre := a.g1 - b.g1
  let nim := a.g2 - b.g2
  let dre := 1 - (a.g1 * b.g1 + a.g2 * b.g2)
  let dim := -(a.g1 * b.g2 - a.g2 * b.g1)
  let den := dre ^ 2 + dim ^ 2
  ⟨(nre * dre + nim * dim) / den, (nim * dre - nre * dim) / den⟩

end Shear

/-- `GSObjectModel.convert_to_unnormalized_basis(scale, g1, g2)`:
`(scale, g1, g2) -> (e0, e1, e2)`.  Builds `galsim.Shear(g1=, g2=)`, reads
its distortion components, then
`e0 = sqrt(4 * scale^4 / (1 - e1norm^2 - e2norm^2))`, `e_i = e_inorm * e0`. -/
noncomputable def convert_to_unnormalized_basis (scale g1 g2 : ℝ) : ℝ × ℝ × ℝ :=
  let shear : Shear := ⟨g1, g2⟩
  let e1norm := shear.e1
  let e2norm := shear.e2
  let e0 := Real.sqrt (4 * scale ^ 4 / (1 - e1norm ^ 2 - e2norm ^ 2))
  (e0, e1norm * e0, e2norm * e0)

/-- `GSObjectModel.convert_from_unnormalized_basis(e0, e1, e2)`:
`(e0, e1, e2) -> (scale, g1, g2)`.  Normalizes `(e1, e2)` by `e0`, converts
distortion to reduced shear via `galsim.Shear(e1=, e2=)`, and
`scale = sqrt(sqrt(e0^2 - e1^2 - e2^2) * 0.5)`. -/
noncomputable def convert_from_unnormalized_basis (e0 e1 e2 : ℝ) : ℝ × ℝ × ℝ :=
  let e1norm := e1 / e0
  let e2norm := e2 / e0
  let shear := Shear.fromE e1norm e2norm
  let scale := Real.sqrt (Real.sqrt (e0 ^ 2 - e1 ^ 2 - e2 ^ 2) * 0.5)
  (scale, shear.g1, shear.g2)

/-- The basis-decoding step of `moment_fit` (source lines 111-115): when the
unnormalized basis is active the stored parameters are run through
`convert_from_unnormalized_basis`, but the source line
`param_scale, param_g1, param_2 = self.convert_from_unnormalized_basis(...)`
binds the third result to a fresh name `param_2`, so `param_g2` keeps its
stored (unnormalized) value.  The embedding reproduces that faithfully. -/
noncomputable def momentFitDecodeBasis (unnormalized : Bool)
    (param_scale param_g1 param_g2 : ℝ) : ℝ × ℝ × ℝ :=
  if unnormalized then
    let r := convert_from_unnormalized_basis param_scale param_g1 param_g2
    (r.1, r.2.1, param_g2)
  else
    (param_scale, param_g1, param_g2)

/-- Measured moments `(flux, cenu, cenv, size, g1, g2)` as produced by the
external HSM estimator and cached under the reserved properties key. -/
abbrev Moments := ℝ × ℝ × ℝ × ℝ × ℝ × ℝ

/-- Modelled from the spec: `StarData` — pixel image (flattened), per-pixel
inverse-variance weight image, image position, pointing, and the mapping of
auxiliary properties.  The reserved cached-moments entry is `hsmCache`; all
other keys are abstracted as `Nat`-keyed scalars in `otherProps`
(`star.py` is not part of the reviewed source). -/
structure StarData where
  image : List ℝ
  image_pos : ℝ × ℝ
  weight : List ℝ
  pointing : ℝ × ℝ
  hsmCache : Option Moments
  otherProps : List (Nat × ℝ)

/-- Modelled from the spec: `StarFit` — parameter vector (possibly unset),
flux, center offset, chi-square, degrees of freedom, and the two opaque
pass-through blocks `alpha`, `beta` (`star.py` is not part of the reviewed
source). -/
structure StarFit where
  params : Option (List ℝ)
  flux : ℝ
  center : ℝ × ℝ
  chisq : Option ℝ
  dof : Option ℤ
  alpha : Option (List ℝ)
  beta : Option (List ℝ)

/-- Modelled from the spec: a `Star` is the immutable pair (data, fit). -/
structure Star where
  data : StarData
  fit : StarFit

/-- Modelled from the spec: the `Star.flux` property delegates to the
star's `StarFit` flux (used by `reflux` as `star.flux`). -/
noncomputable def Star.flux (s : Star) : ℝ := s.fit.flux

/-- `GSObjectModel` configuration, frozen at construction. -/
structure ModelCfg where
  fastfit : Bool
  force_model_center : Bool
  include_pixel : Bool
  unnormalized_basis : Bool

/-- `self._nparams`: 3 when the model center is forced, else 5. -/
def nparams (cfg : ModelCfg) : ℤ := if cfg.force_model_center then 3 else 5

/-- A transformed copy of the fiducial profile:
`gsobj.dilate(scale).shear(g1,g2).shift(du,dv) * flux`.  Only the transform
data is recorded; pixels are produced by the external renderer oracle. -/
structure Profile where
  scale : ℝ
  g1 : ℝ
  g2 : ℝ
  shift : ℝ × ℝ
  flux : ℝ

/-- `profile.shift(c)`. -/
noncomputable def Profile.shiftBy (p : Profile) (c : ℝ × ℝ) : Profile :=
  { p with shift := (p.shift.1 + c.1, p.shift.2 + c.2) }

/-- `profile * flux`. -/
noncomputable def Profile.mulFlux (p : Profile) (f : ℝ) : Profile :=
  { p with flux := p.flux * f }

/-- Modelled from the spec: the external collaborators — the renderer
(`drawImage`, with the pixel-integration method fixed at construction
folded into the oracle) and the HSM moment estimator (`piff.util.hsm`,
not part of the reviewed source), which returns moments and a status flag. -/
structure Ext where
  render : Profile → StarData → List ℝ
  hsm : Star → Moments × ℤ

/-- Names of the lmfit parameters built by `_lmfit_params`. -/
inductive PName where
  | flux | du | dv | scale | e0 | g1 | g2 | e1 | e2
deriving DecidableEq

/-- Modelled from the spec: one entry of an `lmfit.Parameters()` set —
name, value, vary flag, and recognized lower/upper bounds. -/
structure LmPar where
  name : PName
  value : ℝ
  vary : Bool
  min : Option ℝ
  max : Option ℝ

/-- Modelled from the spec: an ordered `lmfit.Parameters()` set. -/
structure LmParams where
  entries : List LmPar

/-- `params[name].value` lookup. -/
noncomputable def LmParams.lookup (ps : LmParams) (n : PName) : Option ℝ :=
  (ps.entries.find? (fun p => p.name == n)).map LmPar.value

/-- `params.valuesdict().values()` — the ordered value list. -/
noncomputable def LmParams.values (ps : LmParams) : List ℝ :=
  ps.entries.map LmPar.value

/-- Modelled from the spec: an `lmfit.MinimizerResult` — final parameters,
success flag, and the reported chi-square. -/
structure MinResult where
  params : LmParams
  success : Bool
  chisqr : ℝ

/-- Modelled from the spec: the external Levenberg-Marquardt minimizer,
a black box over (residual function, initial parameter set). -/
def Minimizer : Type := (LmParams → List ℝ) → LmParams → MinResult

/-- Elementwise product of two pixel arrays (numpy `*`). -/
noncomputable def lmul (xs ys : List ℝ) : List ℝ := List.zipWith (fun a b => a * b) xs ys

/-- Elementwise difference of two pixel arrays (numpy `-`). -/
noncomputable def lsub (xs ys : List ℝ) : List ℝ := List.zipWith (fun a b => a - b) xs ys

/-- Scalar times pixel array (numpy broadcast `*`). -/
noncomputable def lscale (c : ℝ) (xs : List ℝ) : List ℝ := xs.map (fun a => c * a)

/-- Elementwise square (numpy `**2`). -/
noncomputable def lsq (xs : List ℝ) : List ℝ := lmul xs xs

/-- `np.sum`. -/
noncomputable def lsum (xs : List ℝ) : ℝ := xs.sum

/-- `np.count_nonzero`. -/
noncomputable def countNonzero : List ℝ → ℕ
  | [] => 0
  | x :: xs => (if x = 0 then 0 else 1) + countNonzero xs

/-- Python `hasattr(star.data.properties, 'hsm')`: `properties` is a mapping
of auxiliary properties (spec section 3), and Python `hasattr` queries
*object attributes*, never mapping keys, so on a mapping it is `False`
regardless of the cached contents.  This constant-`false` guard is the
faithful embedding of that expression. -/
def hasattr_hsm (_ : StarData) : Bool := false

/-- `GSObjectModel.getProfile(params)`: decode the parameter vector per the
layout invariant (3 entries with forced center, else 5), convert from the
unnormalized basis when active, and build the transformed fiducial. -/
noncomputable def getProfile (cfg : ModelCfg) (params : Option (List ℝ)) :
    Except Err Profile := do
  let (du, dv, scale, g1, g2) ←
    match params with
    | none => Except.error Err.typeError
    | some ps =>
      if cfg.force_model_center then
        match ps with
        | [scale, g1, g2] => Except.ok ((0 : ℝ), (0 : ℝ), scale, g1, g2)
        | _ => Except.error Err.valueError
      else
        match ps with
        | [du, dv, scale, g1, g2] => Except.ok (du, dv, scale, g1, g2)
        | _ => Except.error Err.valueError
  let (scale, g1, g2) :=
    if cfg.unnormalized_basis then convert_from_unnormalized_basis scale g1 g2
    else (scale, g1, g2)
  Except.ok { scale := scale, g1 := g1, g2 := g2, shift := (du, dv), flux := 1 }

/-- `GSObjectModel.draw(star)`: render
`getProfile(star.fit.params).shift(star.fit.center) * star.fit.flux` onto a
copy of the star's image; the returned Star has a fresh `StarData` holding
only the rendered image, image position, weight and pointing (the
`StarData` constructor starts with an empty auxiliary-properties mapping),
and the input star's fit unchanged. -/
noncomputable def draw (cfg : ModelCfg) (ext : Ext) (star : Star) : Except Err Star := do
  let prof ← getProfile cfg star.fit.params
  let prof := Profile.mulFlux (Profile.shiftBy prof star.fit.center) star.fit.flux
  let image := ext.render prof star.data
  let data : StarData := { image := image, image_pos := star.data.image_pos,
                           weight := star.data.weight, pointing := star.data.pointing,
                           hsmCache := none, otherProps := [] }
  Except.ok ⟨data, star.fit⟩

/-- `GSObjectModel.with_hsm(star)`: when the (always-false, see
`hasattr_hsm`) cache test fails, measure moments with the external
estimator, raise on a nonzero flag, and return a new Star whose data copy
carries the measurement under the reserved key. -/
noncomputable def with_hsm (ext : Ext) (star : Star) : Except Err Star :=
  if hasattr_hsm star.data then Except.ok star
  else
    let m := ext.hsm star
    if m.2 ≠ 0 then Except.error Err.runtimeErrorHsm
    else Except.ok ⟨{ star.data with hsmCache := some m.1 }, star.fit⟩

/-- `GSObjectModel.moment_fit(star)`: the single moment-matching update step.
Reads the cached data moments, measures the rendered current model
(raising `ModelFitError` on a bad flag), decodes the stored fit parameters
per the layout invariant, applies the basis-decode step
(`momentFitDecodeBasis`, including the source's `param_2` slip), performs
the ratio/offset/shear-composition update, and re-encodes to the
unnormalized basis when active.  Returns the 6-value result
`[flux, du, dv, scale, g1, g2]`. -/
noncomputable def moment_fit (cfg : ModelCfg) (ext : Ext) (star : Star) :
    Except Err (List ℝ) := do
  let (flux, cenu, cenv, size, g1, g2) ←
    match star.data.hsmCache with
    | none => Except.error Err.keyError
    | some m => Except.ok m
  let shape : Shear := ⟨g1, g2⟩
  let drawn ← draw cfg ext star
  let ((ref_flux, ref_cenu, ref_cenv, ref_size, ref_g1, ref_g2), flag) := ext.hsm drawn
  let ref_shape : Shear := ⟨ref_g1, ref_g2⟩
  if flag ≠ 0 then Except.error Err.modelFitError
  else do
    let param_flux := star.fit.flux
    let (param_du, param_dv, param_scale, param_g1, param_g2) ←
      if cfg.force_model_center then
        match star.fit.params with
        | some [s, a, b] => Except.ok (star.fit.center.1, star.fit.center.2, s, a, b)
        | some _ => Except.error Err.valueError
        | none => Except.error Err.typeError
      else
        match star.fit.params with
        | some [u, v, s, a, b] => Except.ok (u, v, s, a, b)
        | some _ => Except.error Err.valueError
        | none => Except.error Err.typeError
    let (param_scale, param_g1, param_g2) :=
      momentFitDecodeBasis cfg.unnormalized_basis param_scale param_g1 param_g2
    let param_shear : Shear := ⟨param_g1, param_g2⟩
    let param_flux := param_flux * (flux / ref_flux)
    let param_du := param_du + (cenu - ref_cenu)
    let param_dv := param_dv + (cenv - ref_cenv)
    let param_scale := param_scale * (size / ref_size)
    let param_shear := param_shear.add (shape.sub ref_shape)
    let param_g1 := param_shear.g1
    let param_g2 := param_shear.g2
    let (param_scale, param_g1, param_g2) :=
      if cfg.unnormalized_basis then
        convert_to_unnormalized_basis param_scale param_g1 param_g2
      else (param_scale, param_g1, param_g2)
    Except.ok [param_flux, param_du, param_dv, param_scale, param_g1, param_g2]

/-- `GSObjectModel._lmfit_resid(lmparams, star)`: decode the candidate
values (converting from the unnormalized basis first when active), build
the transformed profile, render it, and return the flattened
`sqrt(weight) * (model - data)` residual vector. -/
noncomputable def lmfit_resid (cfg : ModelCfg) (ext : Ext) (star : Star)
    (lmparams : LmParams) : List ℝ :=
  match lmparams.values with
  | [flux, du, dv, p3, p4, p5] =>
    let (scale, g1, g2) :=
      if cfg.unnormalized_basis then convert_from_unnormalized_basis p3 p4 p5
      else (p3, p4, p5)
    let prof : Profile := { scale := scale, g1 := g1, g2 := g2, shift := (du, dv), flux := flux }
    let model_image := ext.render prof star.data
    List.zipWith (fun w r => Real.sqrt w * r) star.data.weight
      (lsub model_image star.data.image)
  | _ => []

/-- The parameter set constructed by `_lmfit_params` (source lines 232-244):
flux with lower bound 0; unconstrained du, dv; `scale`/`e0` with lower
bound 0; shape entries bounded by `maxg = 0.7` (normalized basis) or `5`
(unnormalized basis). -/
noncomputable def buildLmParams (cfg : ModelCfg)
    (vary_params vary_flux vary_center : Bool)
    (flux du dv scale g1 g2 : ℝ) : LmParams :=
  let maxg : ℝ := if cfg.unnormalized_basis then 5 else 0.7
  ⟨[⟨PName.flux, flux, vary_flux, some 0, none⟩,
    ⟨PName.du, du, vary_center, none, none⟩,
    ⟨PName.dv, dv, vary_center, none, none⟩,
    ⟨(if cfg.unnormalized_basis then PName.e0 else PName.scale), scale, vary_params, some 0, none⟩,
    ⟨(if cfg.unnormalized_basis then PName.e1 else PName.g1), g1, vary_params, some (-maxg), some maxg⟩,
    ⟨(if cfg.unnormalized_basis then PName.e2 else PName.g2), g2, vary_params, some (-maxg), some maxg⟩]⟩

/-- `GSObjectModel._lmfit_params(star, ...)`: seed initial values — when
`star.fit.params` is unset, from `moment_fit` through the source's 7-name
unpacking `flux, du, dv, scale, g1, g2, flag = self.moment_fit(star)` of a
6-value return (a Python `ValueError` whenever it is reached); otherwise
decode the current fit per the layout invariant — then build the bounded
parameter set. -/
noncomputable def lmfit_params (cfg : ModelCfg) (ext : Ext) (star : Star)
    (vary_params vary_flux vary_center : Bool) : Except Err LmParams :=
  (match star.fit.params with
   | none => do
     let r ← moment_fit cfg ext star
     match r with
     | [flux, du, dv, scale, g1, g2, flag] =>
       if flag ≠ 0 then Except.error Err.runtimeErrorHsm
       else Except.ok (flux, du, dv, scale, g1, g2)
     | _ => Except.error Err.valueError
   | some ps =>
     let flux := star.fit.flux
     if cfg.force_model_center then
       match ps with
       | [scale, g1, g2] =>
         Except.ok (flux, star.fit.center.1, star.fit.center.2, scale, g1, g2)
       | _ => Except.error Err.valueError
     else
       match ps with
       | [du, dv, scale, g1, g2] => Except.ok (flux, du, dv, scale, g1, g2)
       | _ => Except.error Err.valueError) >>= fun seed =>
  match seed with
  | (flux, du, dv, scale, g1, g2) =>
    pure (buildLmParams cfg vary_params vary_flux vary_center flux du dv scale g1 g2)

/-- `GSObjectModel._lmfit_minimize(params, star)`: delegate to the external
minimizer over the residual function. -/
noncomputable def lmfit_minimize (mz : Minimizer) (resid : LmParams → List ℝ)
    (params : LmParams) : MinResult :=
  mz resid params

/-- `GSObjectModel.lmfit(star)`: build the parameter set (all entries free),
run the external minimizer, unpack the 6 converged values, and raise when
the minimizer reports non-success. -/
noncomputable def lmfit (cfg : ModelCfg) (ext : Ext) (mz : Minimizer) (star : Star) :
    Except Err (List ℝ) := do
  let params ← lmfit_params cfg ext star true true true
  let results := lmfit_minimize mz (lmfit_resid cfg ext star) params
  match results.params.values with
  | [flux, du, dv, scale, g1, g2] =>
    if results.success then Except.ok [flux, du, dv, scale, g1, g2]
    else Except.error Err.runtimeErrorLmfit
  | _ => Except.error Err.valueError

/-- `GSObjectModel.reflux(star, fit_center)`: flux+center mode (center both
requested and free) runs the minimizer with shape held fixed and reports
`dof = nonzero-weight-pixels - 3`; flux-only mode is the closed-form
weighted linear solve from a single rendering, with
`dof = nonzero-weight-pixels - 1`.  Both modes pass `params`, `alpha`,
`beta` through unchanged. -/
noncomputable def reflux (cfg : ModelCfg) (ext : Ext) (mz : Minimizer)
    (star : Star) (fit_center : Bool) : Except Err Star :=
  let do_center := fit_center && cfg.force_model_center
  if do_center then do
    let params ← lmfit_params cfg ext star false true true
    let results := lmfit_minimize mz (lmfit_resid cfg ext star) params
    match results.params.lookup PName.flux, results.params.lookup PName.du,
          results.params.lookup PName.dv with
    | some flux, some du, some dv =>
      Except.ok ⟨star.data,
        { params := star.fit.params, flux := flux, center := (du, dv),
          chisq := some results.chisqr,
          dof := some ((countNonzero star.data.weight : ℤ) - 3),
          alpha := star.fit.alpha, beta := star.fit.beta }⟩
    | _, _, _ => Except.error Err.keyError
  else do
    let drawn ← draw cfg ext star
    let model_image := drawn.data.image
    let image := star.data.image
    let weight := star.data.weight
    let flux_ratio := lsum (lmul (lmul weight image) model_image)
      / lsum (lmul weight (lsq model_image))
    let new_chisq := lsum (lmul weight (lsq (lsub image (lscale flux_ratio model_image))))
    Except.ok ⟨star.data,
      { params := star.fit.params, flux := star.flux * flux_ratio,
        center := star.fit.center, chisq := some new_chisq,
        dof := some ((countNonzero weight : ℤ) - 1),
        alpha := star.fit.alpha, beta := star.fit.beta }⟩

mutual

/-- `GSObjectModel.fit(star, fastfit)`: dispatch to `moment_fit` or `lmfit`
(default mode from the configuration), first running the initializer when
the (always-false) cached-moments test fails; pack the 6 fitted values per
the layout invariant, render once more for `chisq`, and set
`dof = nonzero-weight-pixels - nparams`.  `fuel` bounds the mutual
recursion with the initializer (an embedding artifact; the source's
recursion depth is bounded by 2). -/
noncomputable def fit (fuel : ℕ) (cfg : ModelCfg) (ext : Ext) (mz : Minimizer)
    (star : Star) (fastfit : Option Bool) : Except Err Star :=
  match fuel with
  | 0 => Except.error Err.outOfFuel
  | n + 1 => do
    let ff := fastfit.getD cfg.fastfit
    let star ← if hasattr_hsm star.data then Except.ok star
               else initStar n cfg ext mz star true
    let res ← if ff then moment_fit cfg ext star else lmfit cfg ext mz star
    match res with
    | [flux, du, dv, scale, g1, g2] =>
      let pc : List ℝ × (ℝ × ℝ) :=
        if cfg.force_model_center then ([scale, g1, g2], (du, dv))
        else ([du, dv, scale, g1, g2], ((0 : ℝ), (0 : ℝ)))
      let params := pc.1
      let center := pc.2
      let prof ← getProfile cfg (some params)
      let prof := Profile.shiftBy (Profile.mulFlux prof flux) center
      let model_image := ext.render prof star.data
      let chisq := lsum (lmul star.data.weight (lsq (lsub star.data.image model_image)))
      let dof : ℤ := (countNonzero star.data.weight : ℤ) - nparams cfg
      Except.ok ⟨star.data,
        { params := some params, flux := flux, center := center,
          chisq := some chisq, dof := some dof, alpha := none, beta := none }⟩
    | _ => Except.error Err.valueError

/-- `GSObjectModel.initialize(star, mask)`: run `with_hsm` (raising on a bad
measurement flag), seed the canonical default parameters and refine them
with one fast fit when `params` is unset, and always finish with a
flux-only reflux.  `fuel` bounds the mutual recursion with `fit`. -/
noncomputable def initStar (fuel : ℕ) (cfg : ModelCfg) (ext : Ext) (mz : Minimizer)
    (star : Star) (_mask : Bool) : Except Err Star :=
  match fuel with
  | 0 => Except.error Err.outOfFuel
  | n + 1 => do
    let star ← with_hsm ext star
    let star ←
      if star.fit.params.isNone then
        let params : List ℝ := if cfg.force_model_center then [1, 0, 0] else [0, 0, 1, 0, 0]
        let fitSeed : StarFit := { params := some params, flux := 1, center := (0, 0),
                                   chisq := none, dof := none, alpha := none, beta := none }
        fit n cfg ext mz ⟨star.data, fitSeed⟩ (some true)
      else Except.ok star
    reflux cfg ext mz star false

end

/-- Modelled from the spec: the flux-only reflux result of section 4.6 —
`fluxRatio = sum(weight*data*model) / sum(weight*model^2)`, flux multiplied
by `fluxRatio`, `newChisq = sum(weight*(data - fluxRatio*model)^2)`,
`dof = nonzeroWeightPixels - 1`, with params/center/alpha/beta preserved. -/
noncomputable def reflux_fluxonly_spec (star : Star) (model : List ℝ) : StarFit :=
  let fluxRatio := lsum (lmul (lmul star.data.weight star.data.image) model)
    / lsum (lmul star.data.weight (lsq model))
  { params := star.fit.params
    flux := star.fit.flux * fluxRatio
    center := star.fit.center
    chisq := some (lsum (lmul star.data.weight
      (lsq (lsub star.data.image (lscale fluxRatio model)))))
    dof := some ((countNonzero star.data.weight : ℤ) - 1)
    alpha := star.fit.alpha
    beta := star.fit.beta }

/-! ### Concrete fixtures used by the witness theorems -/

/-- Extract the Star of a successful result, with a fallback. -/
noncomputable def getOk (e : Except Err Star) (d : Star) : Star :=
  match e with
  | Except.ok s => s
  | Except.error _ => d

/-- Extract the parameter set of a successful result, with a fallback. -/
noncomputable def getOkP (e : Except Err LmParams) (d : LmParams) : LmParams :=
  match e with
  | Except.ok s => s
  | Except.error _ => d

/-- A model configuration: fast fit, forced center, normalized basis. -/
def cfg0 : ModelCfg := ⟨true, true, true, false⟩

/-- A renderer/estimator oracle pair with a healthy estimator. -/
noncomputable def ext0 : Ext :=
  { render := fun _ _ => [1], hsm := fun _ => ((1, 0, 0, 1, 0, 0), 0) }

/-- An oracle pair whose moment estimator always fails (flag 1). -/
noncomputable def extBad : Ext :=
  { render := fun _ _ => [1], hsm := fun _ => ((0, 0, 0, 0, 0, 0), 1) }

/-- An oracle pair whose estimator succeeds with moments different from the
cached ones of `star0`. -/
noncomputable def extFresh : Ext :=
  { render := fun _ _ => [1], hsm := fun _ => ((2, 0, 0, 1, 0, 0), 0) }

/-- A minimizer oracle reporting success with the seed parameters. -/
noncomputable def mz0 : Minimizer := fun _ p => ⟨p, true, 0⟩

/-- A second, different minimizer oracle (reports failure). -/
noncomputable def mz1 : Minimizer := fun _ p => ⟨p, false, 1⟩

/-- Star data with one pixel, cached moments and one auxiliary property. -/
noncomputable def data0 : StarData :=
  { image := [2], image_pos := (0, 0), weight := [1], pointing := (0, 0),
    hsmCache := some (1, 0, 0, 1, 0, 0), otherProps := [(0, 1)] }

/-- A set starfit (3-parameter layout, forced center). -/
noncomputable def fitSet : StarFit :=
  { params := some [1, 0, 0], flux := 1, center := (0, 0),
    chisq := none, dof := none, alpha := none, beta := none }

/-- A star with set fit parameters. -/
noncomputable def star0 : Star := ⟨data0, fitSet⟩

/-- The same star with unset fit parameters. -/
noncomputable def star0n : Star := ⟨data0, { fitSet with params := none }⟩

/-! ### Helper lemmas -/

/-- Unfolded form of `convert_to_unnormalized_basis`. -/
theorem convert_to_eq (scale g1 g2 : ℝ) :
    convert_to_unnormalized_basis scale g1 g2 =
      (Real.sqrt (4 * scale ^ 4 /
         (1 - (g1 * (2 / (1 + (g1 ^ 2 + g2 ^ 2)))) ^ 2
            - (g2 * (2 / (1 + (g1 ^ 2 + g2 ^ 2)))) ^ 2)),
       g1 * (2 / (1 + (g1 ^ 2 + g2 ^ 2))) * Real.sqrt (4 * scale ^ 4 /
         (1 - (g1 * (2 / (1 + (g1 ^ 2 + g2 ^ 2)))) ^ 2
            - (g2 * (2 / (1 + (g1 ^ 2 + g2 ^ 2)))) ^ 2)),
       g2 * (2 / (1 + (g1 ^ 2 + g2 ^ 2))) * Real.sqrt (4 * scale ^ 4 /
         (1 - (g1 * (2 / (1 + (g1 ^ 2 + g2 ^ 2)))) ^ 2
            - (g2 * (2 / (1 + (g1 ^ 2 + g2 ^ 2)))) ^ 2))) := rfl

/-- Unfolded form of `convert_from_unnormalized_basis`. -/
theorem convert_from_eq (e0 e1 e2 : ℝ) :
    convert_from_unnormalized_basis e0 e1 e2 =
      (Real.sqrt (Real.sqrt (e0 ^ 2 - e1 ^ 2 - e2 ^ 2) * 0.5),
       e1 / e0 * (1 / (1 + Real.sqrt (1 - ((e1 / e0) ^ 2 + (e2 / e0) ^ 2)))),
       e2 / e0 * (1 / (1 + Real.sqrt (1 - ((e1 / e0) ^ 2 + (e2 / e0) ^ 2))))) := rfl

/-! ### C2: the two basis conversions are mutually inverse on the valid domain -/

/-- C2: for every `scale > 0` and `(g1, g2)` with `g1^2 + g2^2 < 1`,
`convert_from_unnormalized_basis` applied to the result of
`convert_to_unnormalized_basis` reproduces `(scale, g1, g2)` exactly
(the real-number model of the floating-point "within numeric tolerance"). -/
theorem basis_roundtrip (scale g1 g2 : ℝ) (hs : 0 < scale)
    (hg : g1 ^ 2 + g2 ^ 2 < 1) :
    convert_from_unnormalized_basis
      (convert_to_unnormalized_basis scale g1 g2).1
      (convert_to_unnormalized_basis scale g1 g2).2.1
      (convert_to_unnormalized_basis scale g1 g2).2.2 = (scale, g1, g2) := by
  have hs0 : (0:ℝ) ≤ g1 ^ 2 + g2 ^ 2 := by positivity
  have h1p : (0:ℝ) < 1 + (g1 ^ 2 + g2 ^ 2) := by linarith
  have h1m : (0:ℝ) < 1 - (g1 ^ 2 + g2 ^ 2) := by linarith
  have h1p' : (1 + (g1 ^ 2 + g2 ^ 2)) ≠ 0 := ne_of_gt h1p
  have h1m' : (1 - (g1 ^ 2 + g2 ^ 2)) ≠ 0 := ne_of_gt h1m
  have hD : 1 - (g1 * (2 / (1 + (g1 ^ 2 + g2 ^ 2)))) ^ 2
              - (g2 * (2 / (1 + (g1 ^ 2 + g2 ^ 2)))) ^ 2
      = (1 - (g1 ^ 2 + g2 ^ 2)) ^ 2 / (1 + (g1 ^ 2 + g2 ^ 2)) ^ 2 := by
    field_simp
    ring
  have hRad : 4 * scale ^ 4 /
      ((1 - (g1 ^ 2 + g2 ^ 2)) ^ 2 / (1 + (g1 ^ 2 + g2 ^ 2)) ^ 2)
      = (2 * scale ^ 2 * (1 + (g1 ^ 2 + g2 ^ 2)) / (1 - (g1 ^ 2 + g2 ^ 2))) ^ 2 := by
    field_simp
    ring
  have hEpos : 0 < 2 * scale ^ 2 * (1 + (g1 ^ 2 + g2 ^ 2)) / (1 - (g1 ^ 2 + g2 ^ 2)) := by
    apply div_pos
    · positivity
    · exact h1m
  have hsqrt : Real.sqrt (4 * scale ^ 4 /
      (1 - (g1 * (2 / (1 + (g1 ^ 2 + g2 ^ 2)))) ^ 2
         - (g2 * (2 / (1 + (g1 ^ 2 + g2 ^ 2)))) ^ 2))
      = 2 * scale ^ 2 * (1 + (g1 ^ 2 + g2 ^ 2)) / (1 - (g1 ^ 2 + g2 ^ 2)) := by
    rw [hD, hRad, Real.sqrt_sq hEpos.le]
  rw [convert_to_eq, convert_from_eq]
  simp only [hsqrt]
  have hEne : 2 * scale ^ 2 * (1 + (g1 ^ 2 + g2 ^ 2)) / (1 - (g1 ^ 2 + g2 ^ 2)) ≠ 0 :=
    ne_of_gt hEpos
  have hc1 : g1 * (2 / (1 + (g1 ^ 2 + g2 ^ 2)))
        * (2 * scale ^ 2 * (1 + (g1 ^ 2 + g2 ^ 2)) / (1 - (g1 ^ 2 + g2 ^ 2)))
        / (2 * scale ^ 2 * (1 + (g1 ^ 2 + g2 ^ 2)) / (1 - (g1 ^ 2 + g2 ^ 2)))
      = g1 * (2 / (1 + (g1 ^ 2 + g2 ^ 2))) := mul_div_cancel_right₀ _ hEne
  have hc2 : g2 * (2 / (1 + (g1 ^ 2 + g2 ^ 2)))
        * (2 * scale ^ 2 * (1 + (g1 ^ 2 + g2 ^ 2)) / (1 - (g1 ^ 2 + g2 ^ 2)))
        / (2 * scale ^ 2 * (1 + (g1 ^ 2 + g2 ^ 2)) / (1 - (g1 ^ 2 + g2 ^ 2)))
      = g2 * (2 / (1 + (g1 ^ 2 + g2 ^ 2))) := mul_div_cancel_right₀ _ hEne
  rw [hc1, hc2]
  have hsum : 1 - ((g1 * (2 / (1 + (g1 ^ 2 + g2 ^ 2)))) ^ 2
                 + (g2 * (2 / (1 + (g1 ^ 2 + g2 ^ 2)))) ^ 2)
      = ((1 - (g1 ^ 2 + g2 ^ 2)) / (1 + (g1 ^ 2 + g2 ^ 2))) ^ 2 := by
    field_simp
    ring
  have hsum' : Real.sqrt (1 - ((g1 * (2 / (1 + (g1 ^ 2 + g2 ^ 2)))) ^ 2
                 + (g2 * (2 / (1 + (g1 ^ 2 + g2 ^ 2)))) ^ 2))
      = (1 - (g1 ^ 2 + g2 ^ 2)) / (1 + (g1 ^ 2 + g2 ^ 2)) := by
    rw [hsum, Real.sqrt_sq (by positivity)]
  rw [hsum']
  have hInner : (2 * scale ^ 2 * (1 + (g1 ^ 2 + g2 ^ 2)) / (1 - (g1 ^ 2 + g2 ^ 2))) ^ 2
      - (g1 * (2 / (1 + (g1 ^ 2 + g2 ^ 2)))
          * (2 * scale ^ 2 * (1 + (g1 ^ 2 + g2 ^ 2)) / (1 - (g1 ^ 2 + g2 ^ 2)))) ^ 2
      - (g2 * (2 / (1 + (g1 ^ 2 + g2 ^ 2)))
          * (2 * scale ^ 2 * (1 + (g1 ^ 2 + g2 ^ 2)) / (1 - (g1 ^ 2 + g2 ^ 2)))) ^ 2
      = (2 * scale ^ 2) ^ 2 := by
    field_simp
    ring
  rw [hInner, Real.sqrt_sq (by positivity)]
  have hHalf : 2 * scale ^ 2 * 0.5 = scale ^ 2 := by ring
  rw [hHalf, Real.sqrt_sq hs.le]
  have hg1 : g1 * (2 / (1 + (g1 ^ 2 + g2 ^ 2)))
      * (1 / (1 + (1 - (g1 ^ 2 + g2 ^ 2)) / (1 + (g1 ^ 2 + g2 ^ 2)))) = g1 := by
    field_simp
    norm_num
  have hg2 : g2 * (2 / (1 + (g1 ^ 2 + g2 ^ 2)))
      * (1 / (1 + (1 - (g1 ^ 2 + g2 ^ 2)) / (1 + (g1 ^ 2 + g2 ^ 2)))) = g2 := by
    field_simp
    norm_num
  rw [hg1, hg2]

/-- Witness for C2 at `(scale, g1, g2) = (1, 0, 0)`. -/
theorem basis_roundtrip_witness :
    convert_from_unnormalized_basis
      (convert_to_unnormalized_basis 1 0 0).1
      (convert_to_unnormalized_basis 1 0 0).2.1
      (convert_to_unnormalized_basis 1 0 0).2.2 = ((1 : ℝ), (0 : ℝ), (0 : ℝ)) :=
  basis_roundtrip 1 0 0 (by norm_num) (by norm_num)

/-! ### C1: the basis decode step of `moment_fit` -/

/-- C1 (code-bug evidence): in the unnormalized basis, the parameter-decoding
step of `moment_fit` does not agree with `convert_from_unnormalized_basis`
on the stored parameters — at stored `(e0, e1, e2) = (2, 0, 1)` the source's
`param_2` assignment slip leaves the third (g2) slot at its raw stored value
instead of the converted one. -/
theorem momentFit_decode_diverges :
    momentFitDecodeBasis true 2 0 1 ≠ convert_from_unnormalized_basis 2 0 1 := by
  intro hEq
  have h3 := congrArg (fun t : ℝ × ℝ × ℝ => t.2.2) hEq
  simp only [momentFitDecodeBasis, if_pos, convert_from_eq] at h3
  have hr : 0 ≤ Real.sqrt (1 - (((0:ℝ) / 2) ^ 2 + ((1:ℝ) / 2) ^ 2)) := Real.sqrt_nonneg _
  have h1r : (0:ℝ) < 1 + Real.sqrt (1 - (((0:ℝ) / 2) ^ 2 + ((1:ℝ) / 2) ^ 2)) := by linarith
  field_simp [ne_of_gt h1r] at h3
  linarith [Real.sqrt_nonneg ((2 : ℝ) ^ 2 - 1), h3]

/-! ### Except-monad helper lemmas -/

/-- Reduction of `Except` bind on a success. -/
theorem bind_ok_eq {α β : Type} (a : α) (f : α → Except Err β) :
    (Except.ok a >>= f) = f a := rfl

/-- Reduction of `Except` bind on an error. -/
theorem bind_error_eq {α β : Type} (e : Err) (f : α → Except Err β) :
    ((Except.error e : Except Err α) >>= f) = Except.error e := rfl

/-- `pure` on `Except` is `Except.ok`. -/
theorem pure_eq_ok {α : Type} (a : α) : (pure a : Except Err α) = Except.ok a := rfl

/-- Inversion of a successful `Except` bind. -/
theorem bind_eq_ok {α β : Type} {m : Except Err α} {f : α → Except Err β} {b : β}
    (h : (m >>= f) = Except.ok b) : ∃ a, m = Except.ok a ∧ f a = Except.ok b := by
  cases m with
  | ok a => exact ⟨a, rfl, h⟩
  | error e => simp [bind_error_eq] at h

/-- `moment_fit` never succeeds on a star with unset fit parameters: the
rendering of the current model (`draw`) already fails unpacking `None`. -/
theorem moment_fit_params_none (cfg : ModelCfg) (ext : Ext) (star : Star)
    (hnone : star.fit.params = none) :
    ∀ l, moment_fit cfg ext star ≠ Except.ok l := by
  intro l h
  have hd : draw cfg ext star = Except.error Err.typeError := by
    unfold draw
    rw [hnone]
    rfl
  unfold moment_fit at h
  cases hc : star.data.hsmCache with
  | none => rw [hc] at h; simp [bind_error_eq] at h
  | some m =>
    obtain ⟨mf, mcu, mcv, msz, mg1, mg2⟩ := m
    rw [hc] at h
    simp [bind_ok_eq, hd, bind_error_eq] at h

/-! ### C6: a permanently failing moment estimator makes the initializer raise -/

/-- C6: if the external moment estimator always returns a nonzero status
flag, the initializer raises the measurement-failure error (`with_hsm`'s
RuntimeError on a bad flag) and returns no Star at all; being a pure
function of the input Star, it leaves the input unchanged and produces no
partially-updated Star. -/
theorem initStar_fails_on_bad_estimator (fuel : ℕ) (cfg : ModelCfg) (ext : Ext)
    (mz : Minimizer) (star : Star) (hfail : ∀ s, (ext.hsm s).2 ≠ 0) :
    initStar (fuel + 1) cfg ext mz star true = Except.error Err.runtimeErrorHsm := by
  have hw : with_hsm ext star = Except.error Err.runtimeErrorHsm := by
    simp [with_hsm, hasattr_hsm, hfail star]
  simp [initStar, hw, bind_error_eq]

/-- Witness for C6: the always-failing estimator `extBad` on `star0`. -/
theorem initStar_fails_witness :
    initStar 1 cfg0 extBad mz0 star0 true = Except.error Err.runtimeErrorHsm :=
  initStar_fails_on_bad_estimator 0 cfg0 extBad mz0 star0 (by intro s; simp [extBad])

/-! ### C9: draw returns the fit unchanged and a fresh properties-free data -/

/-- C9: whenever `draw` succeeds, the returned Star carries the input star's
StarFit exactly, and a StarData holding only the rendered image plus the
input's weight, image position and pointing; the auxiliary-properties
mapping (including any cached moment tuple) is not carried over. -/
theorem draw_fresh_data (cfg : ModelCfg) (ext : Ext) (star s2 : Star)
    (h : draw cfg ext star = Except.ok s2) :
    s2.fit = star.fit
    ∧ s2.data.weight = star.data.weight
    ∧ s2.data.image_pos = star.data.image_pos
    ∧ s2.data.pointing = star.data.pointing
    ∧ s2.data.hsmCache = none
    ∧ s2.data.otherProps = [] := by
  unfold draw at h
  cases hp : getProfile cfg star.fit.params with
  | error e => rw [hp] at h; simp [bind_error_eq] at h
  | ok prof =>
    rw [hp] at h
    simp [bind_ok_eq] at h
    subst h
    exact ⟨rfl, rfl, rfl, rfl, rfl, rfl⟩

/-- Witness for C9: a successful concrete `draw`. -/
theorem draw_fresh_data_witness :
    (getOk (draw cfg0 ext0 star0) star0).fit = star0.fit
    ∧ (getOk (draw cfg0 ext0 star0) star0).data.weight = star0.data.weight
    ∧ (getOk (draw cfg0 ext0 star0) star0).data.image_pos = star0.data.image_pos
    ∧ (getOk (draw cfg0 ext0 star0) star0).data.pointing = star0.data.pointing
    ∧ (getOk (draw cfg0 ext0 star0) star0).data.hsmCache = none
    ∧ (getOk (draw cfg0 ext0 star0) star0).data.otherProps = [] :=
  draw_fresh_data cfg0 ext0 star0 (getOk (draw cfg0 ext0 star0) star0) rfl

/-! ### C7 and C10: the constrained parameter set built by `_lmfit_params` -/

/-- Any successful `lmfit_params` result is `buildLmParams` at some seed. -/
theorem lmfit_params_ok_shape (cfg : ModelCfg) (ext : Ext) (star : Star)
    (vp vf vc : Bool) (ps : LmParams)
    (h : lmfit_params cfg ext star vp vf vc = Except.ok ps) :
    ∃ flux du dv scale g1 g2,
      ps = buildLmParams cfg vp vf vc flux du dv scale g1 g2 := by
  unfold lmfit_params at h
  obtain ⟨⟨flux, du, dv, scale, g1, g2⟩, hseed, hpure⟩ := bind_eq_ok h
  refine ⟨flux, du, dv, scale, g1, g2, ?_⟩
  simp only [pure_eq_ok, Except.ok.injEq] at hpure
  exact hpure.symm

/-- C7: the parameter set handed to the nonlinear minimizer always bounds
flux below by 0, leaves du and dv unconstrained, and bounds both shape
entries to `[-0.7, 0.7]` in the normalized basis and `[-5, 5]` in the
unnormalized basis (the size entry also carries its lower bound 0). -/
theorem lmfit_params_bounds (cfg : ModelCfg) (ext : Ext) (star : Star)
    (vp vf vc : Bool) (ps : LmParams)
    (h : lmfit_params cfg ext star vp vf vc = Except.ok ps) :
    ps.entries.map (fun p => (p.name, p.min, p.max))
      = [(PName.flux, some 0, none),
         (PName.du, none, none),
         (PName.dv, none, none),
         ((if cfg.unnormalized_basis then PName.e0 else PName.scale), some 0, none),
         ((if cfg.unnormalized_basis then PName.e1 else PName.g1),
            some (-(if cfg.unnormalized_basis then (5 : ℝ) else 0.7)),
            some (if cfg.unnormalized_basis then (5 : ℝ) else 0.7)),
         ((if cfg.unnormalized_basis then PName.e2 else PName.g2),
            some (-(if cfg.unnormalized_basis then (5 : ℝ) else 0.7)),
            some (if cfg.unnormalized_basis then (5 : ℝ) else 0.7))] := by
  obtain ⟨f, du, dv, s, g1, g2, rfl⟩ := lmfit_params_ok_shape cfg ext star vp vf vc ps h
  simp [buildLmParams]

/-- Witness for C7: the concrete parameter set built for `star0`. -/
theorem lmfit_params_bounds_witness :
    (getOkP (lmfit_params cfg0 ext0 star0 true true true) ⟨[]⟩).entries.map
        (fun p => (p.name, p.min, p.max))
      = [(PName.flux, some 0, none),
         (PName.du, none, none),
         (PName.dv, none, none),
         ((if cfg0.unnormalized_basis then PName.e0 else PName.scale), some 0, none),
         ((if cfg0.unnormalized_basis then PName.e1 else PName.g1),
            some (-(if cfg0.unnormalized_basis then (5 : ℝ) else 0.7)),
            some (if cfg0.unnormalized_basis then (5 : ℝ) else 0.7)),
         ((if cfg0.unnormalized_basis then PName.e2 else PName.g2),
            some (-(if cfg0.unnormalized_basis then (5 : ℝ) else 0.7)),
            some (if cfg0.unnormalized_basis then (5 : ℝ) else 0.7))] :=
  lmfit_params_bounds cfg0 ext0 star0 true true true
    (getOkP (lmfit_params cfg0 ext0 star0 true true true) ⟨[]⟩) rfl

/-- C10: for every combination of vary flags, the size entry of the built
parameter set (`scale` in the normalized basis, `e0` in the unnormalized
basis) carries the lower bound 0 and no upper bound, so the minimizer is
never handed a negative size. -/
theorem lmfit_params_size_bound (cfg : ModelCfg) (ext : Ext) (star : Star)
    (vp vf vc : Bool) (ps : LmParams)
    (h : lmfit_params cfg ext star vp vf vc = Except.ok ps) :
    ∃ v, ps.entries.get? 3
      = some ⟨(if cfg.unnormalized_basis then PName.e0 else PName.scale), v, vp, some 0, none⟩ := by
  obtain ⟨f, du, dv, s, g1, g2, rfl⟩ := lmfit_params_ok_shape cfg ext star vp vf vc ps h
  exact ⟨s, rfl⟩

/-- Witness for C10: the size entry of the concrete set for `star0`,
with `vary_params = false`. -/
theorem lmfit_params_size_bound_witness :
    ∃ v, (getOkP (lmfit_params cfg0 ext0 star0 false true true) ⟨[]⟩).entries.get? 3
      = some ⟨(if cfg0.unnormalized_basis then PName.e0 else PName.scale), v, false, some 0, none⟩ :=
  lmfit_params_size_bound cfg0 ext0 star0 false true true
    (getOkP (lmfit_params cfg0 ext0 star0 false true true) ⟨[]⟩) rfl

/-! ### C8: reflux passes params, alpha and beta through unchanged -/

/-- C8: whenever `reflux` (either mode) returns a Star, that Star reuses the
input star's data and its StarFit carries the input fit's parameter vector,
alpha and beta unchanged — only flux, center, chisq and dof are replaced. -/
theorem reflux_preserves_opaque (cfg : ModelCfg) (ext : Ext) (mz : Minimizer)
    (star : Star) (fc : Bool) (s2 : Star)
    (h : reflux cfg ext mz star fc = Except.ok s2) :
    s2.data = star.data
    ∧ s2.fit.params = star.fit.params
    ∧ s2.fit.alpha = star.fit.alpha
    ∧ s2.fit.beta = star.fit.beta := by
  unfold reflux at h
  cases hb : fc && cfg.force_model_center with
  | true =>
    simp only [hb, if_true] at h
    obtain ⟨params, hps, h2⟩ := bind_eq_ok h
    split at h2
    · simp at h2
      subst h2
      exact ⟨rfl, rfl, rfl, rfl⟩
    · simp at h2
  | false =>
    simp only [hb, Bool.false_eq_true, if_false] at h
    obtain ⟨drawn, hd, h2⟩ := bind_eq_ok h
    simp at h2
    subst h2
    exact ⟨rfl, rfl, rfl, rfl⟩

/-- Witness for C8: a successful concrete flux-only reflux. -/
theorem reflux_preserves_opaque_witness :
    (getOk (reflux cfg0 ext0 mz0 star0 false) star0).data = star0.data
    ∧ (getOk (reflux cfg0 ext0 mz0 star0 false) star0).fit.params = star0.fit.params
    ∧ (getOk (reflux cfg0 ext0 mz0 star0 false) star0).fit.alpha = star0.fit.alpha
    ∧ (getOk (reflux cfg0 ext0 mz0 star0 false) star0).fit.beta = star0.fit.beta :=
  reflux_preserves_opaque cfg0 ext0 mz0 star0 false
    (getOk (reflux cfg0 ext0 mz0 star0 false) star0) rfl

/-! ### C3: flux-only reflux is the closed-form solve, without the minimizer -/

/-- C3: when `fit_center` is false or the model center is not forced,
`reflux` equals the spec's closed-form flux-only update applied to a single
rendering of the current model (`fluxRatio = sum(w*d*m)/sum(w*m^2)`, flux
multiplied by it, the stated chisq, `dof = nonzero-weight pixels - 1`), and
its result does not depend on the nonlinear minimizer oracle at all. -/
theorem reflux_fluxonly_correct (cfg : ModelCfg) (ext : Ext) (mz mz2 : Minimizer)
    (star : Star) (fc : Bool)
    (h : fc = false ∨ cfg.force_model_center = false) :
    reflux cfg ext mz star fc
      = Except.map (fun drawn => ⟨star.data, reflux_fluxonly_spec star drawn.data.image⟩)
          (draw cfg ext star)
    ∧ reflux cfg ext mz star fc = reflux cfg ext mz2 star fc := by
  have hdc : (fc && cfg.force_model_center) = false := by
    cases h with
    | inl h => rw [h]; simp
    | inr h => rw [h]; simp
  constructor
  · unfold reflux
    rw [hdc]
    simp only [Bool.false_eq_true, if_false]
    cases hd : draw cfg ext star with
    | error e => simp [bind_error_eq, Except.map]
    | ok drawn =>
      simp [bind_ok_eq, Except.map, reflux_fluxonly_spec, Star.flux]
  · unfold reflux
    rw [hdc]
    simp only [Bool.false_eq_true, if_false]

/-- Witness for C3: concrete star, oracles and two different minimizers. -/
theorem reflux_fluxonly_witness :
    (reflux cfg0 ext0 mz0 star0 false
      = Except.map (fun drawn => ⟨star0.data, reflux_fluxonly_spec star0 drawn.data.image⟩)
          (draw cfg0 ext0 star0))
    ∧ reflux cfg0 ext0 mz0 star0 false = reflux cfg0 ext0 mz1 star0 false :=
  reflux_fluxonly_correct cfg0 ext0 mz0 mz1 star0 false (Or.inl rfl)

/-! ### C4: the seeding path for an unset fit never succeeds -/

/-- C4 (code-bug evidence): when `star.fit.params` is unset, `_lmfit_params`
can never produce a parameter set: the seeding path calls `moment_fit`,
which itself unpacks the unset parameter vector (`TypeError` in `draw` /
the decode), and the source's 7-name unpacking of `moment_fit`'s 6-value
return would raise even if it did return.  So no seed from the moment fit
is ever produced, contradicting the claimed seeding behavior. -/
theorem lmfit_params_unset_never_seeds (cfg : ModelCfg) (ext : Ext) (star : Star)
    (vp vf vc : Bool) (ps : LmParams) (hnone : star.fit.params = none) :
    lmfit_params cfg ext star vp vf vc ≠ Except.ok ps := by
  intro h
  unfold lmfit_params at h
  rw [hnone] at h
  obtain ⟨v, hv, hpure⟩ := bind_eq_ok h
  obtain ⟨l, hl, hm⟩ := bind_eq_ok hv
  exact moment_fit_params_none cfg ext star hnone l hl

/-- C4 (code-bug evidence, concrete): on `star0n` — cached moments present,
`fit.params` unset, healthy oracles — `_lmfit_params` raises (the seeding
path's `moment_fit` call unpacks the unset parameter vector) instead of
seeding from the moment fit. -/
theorem lmfit_params_unset_raises :
    lmfit_params cfg0 ext0 star0n true true true = Except.error Err.typeError := rfl

/-! ### C5: the cached-moments test is constantly false -/

/-- C5 (code-bug evidence): `hasattr(star.data.properties, 'hsm')` is false
for every StarData — so `fit`'s guard always runs the initializer and
`with_hsm` always re-measures: on `star0`, whose data carries cached
moments `(1,0,0,1,0,0)`, `with_hsm` overwrites the cache with the fresh
measurement `(2,0,0,1,0,0)` of the `extFresh` estimator, a different
value. -/
theorem with_hsm_ignores_cache :
    (∀ d : StarData, hasattr_hsm d = false)
    ∧ star0.data.hsmCache = some (1, 0, 0, 1, 0, 0)
    ∧ with_hsm extFresh star0
        = Except.ok ⟨{ star0.data with hsmCache := some (2, 0, 0, 1, 0, 0) }, star0.fit⟩
    ∧ ((2 : ℝ), (0 : ℝ), (0 : ℝ), (1 : ℝ), (0 : ℝ), (0 : ℝ))
        ≠ ((1 : ℝ), (0 : ℝ), (0 : ℝ), (1 : ℝ), (0 : ℝ), (0 : ℝ)) := by
  refine ⟨fun _ => rfl, rfl, rfl, ?_⟩
  intro hEq
  have h1 := congrArg (fun t : Moments => t.1) hEq
  norm_num at h1

end Piff
